import Mathlib

/-!
Shallow embedding of the per-author linguistic feature extraction pipeline
of `src/src/analyzer.py` (class `LinguisticAnalyzer`), together with
theorems settling the frozen claims about it.

Conventions of the embedding:
* Python floats are modelled as exact rationals (`ℚ`).
* Python exceptions (`ZeroDivisionError` from `/`, `TypeError` from
  `str.join` on a non-string element) are modelled with `Except PyErr`.
* Python dicts and `collections.Counter` preserve insertion order, and
  `sorted`/`Counter.most_common` are stable; they are modelled as
  association lists built in insertion order plus a stable descending
  insertion sort.
* External library functions (`nltk.word_tokenize`, `nltk.sent_tokenize`,
  `textstat`) are not part of this repository; they are modelled as total
  deterministic functions faithful to their documented behaviour on the
  inputs the claims exercise (in particular, both tokenizers return `[]`
  on the empty string, and textstat guards its own internal divisions).
-/

/-- Python exceptions that the analyzer code can raise. -/
inductive PyErr : Type
  | zeroDivision : PyErr
  | typeError : Nat → PyErr
  deriving DecidableEq, Repr

/-- Python division `a / b`: raises `ZeroDivisionError` when `b = 0`. -/
def pydiv (a b : ℚ) : Except PyErr ℚ :=
  if b = 0 then Except.error PyErr.zeroDivision else Except.ok (a / b)

/-- Characters counted as word characters by Python regex `\w` (ASCII model). -/
def isWChar (c : Char) : Bool := c.isAlphanum || c = '_'

/-- Python `str.count(sub)` scan on character lists: number of
non-overlapping occurrences of `pat`, scanning from the left.  The `fuel`
argument only makes the recursion structural; every step consumes at
least one character, so `fuel = l.length` (as passed by `countSubL`)
never runs out.  All call sites in the analyzer pass a non-empty literal
pattern. -/
def countSubGo (pat : List Char) : Nat → List Char → Nat
  | 0, _ => 0
  | _ + 1, [] => 0
  | fuel + 1, c :: rest =>
    if pat.isPrefixOf (c :: rest) ∧ pat ≠ [] then
      1 + countSubGo pat fuel (rest.drop (pat.length - 1))
    else
      countSubGo pat fuel rest

/-- Python `str.count(sub)` on character lists. -/
def countSubL (pat l : List Char) : Nat := countSubGo pat l.length l

/-- Python `str.count(sub)` on strings. -/
def countSub (s pat : String) : Nat := countSubL pat.data s.data

/-- Python `sub in s` (substring containment, `re.search` of a literal):
a non-empty pattern occurs somewhere in `s` iff its non-overlapping
occurrence count is positive. -/
def containsSub (s pat : String) : Bool := decide (0 < countSub s pat)

/-- Python `str.lower()` (ASCII model, characterwise). -/
def pyLower (s : String) : String := (s.data.map Char.toLower).asString

/-- Python `str.strip()` on character lists: drop whitespace from both
ends. -/
def pyStripL (l : List Char) : List Char :=
  ((l.dropWhile Char.isWhitespace).reverse.dropWhile Char.isWhitespace).reverse

/-- Python `str.strip()` on strings. -/
def pyStrip (s : String) : String := (pyStripL s.data).asString

/-- Python `str.split('\n')` on character lists: split at every newline,
keeping empty fields. -/
def splitNlL : List Char → List (List Char)
  | [] => [[]]
  | c :: rest =>
    if c = '\n' then [] :: splitNlL rest
    else
      match splitNlL rest with
      | s :: ss => (c :: s) :: ss
      | [] => [[c]]

/-- Python `str.split('\n')` on strings. -/
def pySplitLines (s : String) : List String := (splitNlL s.data).map List.asString

/-- Python `str.split()` with no argument: maximal non-whitespace runs
(empty fields dropped).  `fuel` only makes the recursion structural and
is always sufficient at `l.length`. -/
def splitWsGo : Nat → List Char → List String
  | 0, _ => []
  | _ + 1, [] => []
  | fuel + 1, c :: rest =>
    if c.isWhitespace then splitWsGo fuel rest
    else
      (c :: rest.takeWhile (fun x => !x.isWhitespace)).asString ::
        splitWsGo fuel (rest.dropWhile (fun x => !x.isWhitespace))

/-- Python `str.split()` with no argument, on strings. -/
def pySplit (s : String) : List String := splitWsGo s.data.length s.data

/-- Python `str.isupper()` for a token: at least one cased character and
every cased character uppercase (ASCII model: cased = alphabetic). -/
def pyIsUpper (s : String) : Bool :=
  s.data.any Char.isAlpha && s.data.all (fun c => !c.isAlpha || c.isUpper)

/-- Python `str.isalpha()`: non-empty and all characters alphabetic. -/
def pyIsAlpha (s : String) : Bool :=
  s.data ≠ [] && s.data.all Char.isAlpha

/-- Python `lines[-3:]`: the last `n` elements of a list (all of it when
it is shorter). -/
def takeLast (n : Nat) (l : List α) : List α := l.drop (l.length - n)

/-- Modelled from the external NLTK `word_tokenize`: maximal runs of
alphanumeric characters are word tokens, every other non-space character
is a one-character token, whitespace separates.  The analyzer only relies
on it being a deterministic tokenizer with `word_tokenize "" = []`. -/
def wordTokenizeGo : Nat → List Char → List String
  | 0, _ => []
  | _ + 1, [] => []
  | fuel + 1, c :: rest =>
    if c.isWhitespace then wordTokenizeGo fuel rest
    else if c.isAlphanum then
      (c :: rest.takeWhile Char.isAlphanum).asString ::
        wordTokenizeGo fuel (rest.dropWhile Char.isAlphanum)
    else
      String.singleton c :: wordTokenizeGo fuel rest

/-- NLTK `word_tokenize` model on strings (the fuel only makes the
recursion structural and is always sufficient at the text length). -/
def word_tokenize (s : String) : List String := wordTokenizeGo s.data.length s.data

/-- Sentence terminators for the sentence-splitter model. -/
def isSentEnd (c : Char) : Bool := c = '.' || c = '!' || c = '?'

/-- Modelled from the external NLTK `sent_tokenize` (simplified boundary
model: every terminator character ends a sentence, sentences are trimmed,
whitespace-only fragments are dropped).  The analyzer only relies on it
being deterministic with `sent_tokenize "" = []`. -/
def sentTokenizeAux (cur : List Char) : List Char → List String
  | [] =>
    let s := pyStripL cur.reverse
    if s = [] then [] else [s.asString]
  | c :: rest =>
    if isSentEnd c then
      (pyStripL (c :: cur).reverse).asString :: sentTokenizeAux [] rest
    else
      sentTokenizeAux (c :: cur) rest

/-- NLTK `sent_tokenize` model on strings. -/
def sent_tokenize (s : String) : List String := sentTokenizeAux [] s.data

/-- Python `defaultdict(int)` increment / `Counter` update: bump the count
of `k`, keeping insertion order, appending `(k, 1)` when `k` is new. -/
def dincr (d : List (String × Nat)) (k : String) : List (String × Nat) :=
  match d with
  | [] => [(k, 1)]
  | (k2, v) :: rest => if k2 = k then (k2, v + 1) :: rest else (k2, v) :: dincr rest k

/-- Python `Counter(l)`: counts in first-encounter order. -/
def counterOf (l : List String) : List (String × Nat) := l.foldl dincr []

/-- Descending-count preorder on (key, count) pairs: `a` may come before
`b` when the count of `b` is at most the count of `a`. -/
def countGE (a b : String × Nat) : Prop := b.2 ≤ a.2

instance : DecidableRel countGE := fun a b => Nat.decLe b.2 a.2

instance : IsTotal (String × Nat) countGE :=
  ⟨fun a b => Nat.le_total b.2 a.2⟩

instance : IsTrans (String × Nat) countGE :=
  ⟨fun _ _ _ h1 h2 => Nat.le_trans h2 h1⟩

/-- Stable sort by descending count, modelling Python
`sorted(pairs, key=lambda x: x[1], reverse=True)` (Python sort is stable:
among equal counts, earlier input elements stay first). -/
def sortDescBy (l : List (String × Nat)) : List (String × Nat) :=
  List.insertionSort countGE l

/-- Python `Counter(l).most_common(n)`: stable descending sort of the
first-encounter-ordered counts, truncated to `n` entries. -/
def most_common (n : Nat) (l : List String) : List (String × Nat) :=
  (sortDescBy (counterOf l)).take n

/-- Modelled from NLTK data: `stopwords.words("english")` (external to
this repository).  Contraction entries (forms written with an apostrophe)
are omitted from the model: no theorem below depends on them, and the
alphabetic-token filters of the analyzer reject any token containing an
apostrophe anyway. -/
def nltk_english_stopwords : List String :=
  ["i", "me", "my", "myself", "we", "our", "ours", "ourselves", "you",
   "your", "yours", "yourself", "yourselves", "he", "him", "his",
   "himself", "she", "her", "hers", "herself", "it", "its", "itself",
   "they", "them", "their", "theirs", "themselves", "what", "which",
   "who", "whom", "this", "that", "these", "those", "am", "is", "are",
   "was", "were", "be", "been", "being", "have", "has", "had", "having",
   "do", "does", "did", "doing", "a", "an", "the", "and", "but", "if",
   "or", "because", "as", "until", "while", "of", "at", "by", "for",
   "with", "about", "against", "between", "into", "through", "during",
   "before", "after", "above", "below", "to", "from", "up", "down", "in",
   "out", "on", "off", "over", "under", "again", "further", "then",
   "once", "here", "there", "when", "where", "why", "how", "all", "any",
   "both", "each", "few", "more", "most", "other", "some", "such", "no",
   "nor", "not", "only", "own", "same", "so", "than", "too", "very",
   "s", "t", "can", "will", "just", "don", "should", "now", "d", "ll",
   "m", "o", "re", "ve", "y", "ain", "aren", "couldn", "didn", "doesn",
   "hadn", "hasn", "haven", "isn", "ma", "mightn", "mustn", "needn",
   "shan", "shouldn", "wasn", "weren", "won", "wouldn"]

/-- The corporate stopwords added in `LinguisticAnalyzer.__init__`. -/
def corporate_stopwords : List String :=
  ["email", "sent", "subject", "from", "to", "cc", "bcc",
   "forwarded", "original", "message", "wrote", "date"]

/-- The analyzer's `self.stop_words` set (only membership is ever used). -/
def stop_words : List String := nltk_english_stopwords ++ corporate_stopwords

/-- Result of `_analyze_punctuation`. -/
structure PunctStyle : Type where
  ellipsis_usage : ℚ
  dash_usage : ℚ
  parenthesis_usage : ℚ
  semicolon_usage : ℚ
  deriving DecidableEq, Repr

/-- Result of `_analyze_writing_style`. -/
structure WritingStyle : Type where
  avg_sentence_length : ℚ
  reading_ease : ℚ
  exclamation_usage : ℚ
  question_usage : ℚ
  uppercase_ratio : ℚ
  punctuation_style : PunctStyle
  deriving DecidableEq, Repr

/-- Result of `_calculate_diversity`. -/
structure VocabDiversity : Type where
  total_words : Nat
  unique_words : Nat
  lexical_diversity : ℚ
  vocabulary_richness : ℚ
  deriving DecidableEq, Repr

/-- Result of `_get_emphasis_patterns`. -/
structure EmphasisPatterns : Type where
  all_caps : Nat
  repetition : Nat
  very_really : Nat
  absolutely_definitely : Nat
  deriving DecidableEq, Repr

/-- Result of `_create_fingerprint`. -/
structure Fingerprint : Type where
  starter_phrases : List (String × Nat)
  closing_phrases : List (String × Nat)
  transition_words : List (String × Nat)
  emphasis_patterns : EmphasisPatterns
  deriving DecidableEq, Repr

/-- Result of `_analyze_email_patterns`. -/
structure EmailPatterns : Type where
  avg_email_length : ℚ
  greeting_style : List (String × Nat)
  signature_style : List (String × Nat)
  deriving DecidableEq, Repr

/-- The analysis record returned by `analyze_person`. -/
structure Analysis : Type where
  person : String
  total_emails : Nat
  comfort_words : List (String × Nat)
  favorite_phrases : List (String × Nat)
  writing_style : WritingStyle
  vocabulary_diversity : VocabDiversity
  linguistic_fingerprint : Fingerprint
  email_patterns : EmailPatterns
  deriving DecidableEq, Repr

/-- The meaningful-token filter of `_get_comfort_words`: alphabetic, not a
stopword, length strictly greater than 3. -/
def isComfortWord (w : String) : Bool :=
  pyIsAlpha w && !(stop_words.contains w) && decide (3 < w.length)

/-- `LinguisticAnalyzer._get_comfort_words` with the default `top_n = 30`:
tokenize the lowercased text, keep meaningful words, return the 30 most
common (word, count) pairs. -/
def get_comfort_words (text : String) : List (String × Nat) :=
  let words := word_tokenize (pyLower text)
  let meaningful_words := words.filter isComfortWord
  most_common 30 meaningful_words

/-- The substance filter of `_get_favorite_phrases`: a token passes when
it is not a stopword or is one of the stoplisted exceptions. -/
def substanceOk (w : String) : Bool :=
  !(stop_words.contains w) || ["not", "very", "really"].contains w

/-- `LinguisticAnalyzer._get_favorite_phrases` with the default
`n_gram = 3`: for each email, slide a window of 3 consecutive lowercase
tokens (indices `range(len(words) - 3 + 1)`, empty when the message has
fewer than 3 tokens, exactly as the Python `range` of a non-positive
bound), keep windows whose tokens all pass the substance filter, join
with single spaces, accumulate across emails, return the 20 most common. -/
def get_favorite_phrases (emails : List String) : List (String × Nat) :=
  let all_phrases := emails.foldl (fun acc email =>
    let words := word_tokenize (pyLower email)
    acc ++ (List.range (words.length + 1 - 3)).filterMap (fun i =>
      let w := (words.drop i).take 3
      if w.all substanceOk then some (" ".intercalate w) else none)) []
  most_common 20 all_phrases

/-- Modelled from the external textstat library: `avg_sentence_length`
(words per sentence); textstat guards its own division, returning 0 on
degenerate input.  The analyzer only passes its value through. -/
def textstat_avg_sentence_length (text : String) : ℚ :=
  let s := sent_tokenize text
  let w := word_tokenize text
  if s.length = 0 then 0 else (w.length : ℚ) / (s.length : ℚ)

/-- Crude vowel-group syllable count used by the textstat model below. -/
def syllableCount (w : String) : Nat :=
  ((pyLower w).data.foldl (fun st c =>
    let isV := c = 'a' || c = 'e' || c = 'i' || c = 'o' || c = 'u'
    ((if isV && !st.2 then st.1 + 1 else st.1), isV)) ((0 : Nat), false)).1

/-- Modelled from the external textstat library: `flesch_reading_ease`
(the published Flesch formula over words per sentence and syllables per
word, with internal divisions guarded, returning 0 on degenerate input).
The analyzer only passes its value through. -/
def textstat_flesch_reading_ease (text : String) : ℚ :=
  let s := sent_tokenize text
  let w := word_tokenize text
  if s.length = 0 ∨ w.length = 0 then 0
  else
    let asl : ℚ := (w.length : ℚ) / (s.length : ℚ)
    let asw : ℚ := ((w.map syllableCount).sum : ℚ) / (w.length : ℚ)
    206835 / 1000 - 1015 / 1000 * asl - 846 / 10 * asw

/-- `LinguisticAnalyzer._analyze_punctuation`: each metric is a raw count
divided by the total character count, times 1000; the divisions raise
`ZeroDivisionError` on empty text (the source has no guard). -/
def analyze_punctuation (text : String) : Except PyErr PunctStyle := do
  let total_chars := text.length
  let e ← pydiv (countSub text "..." : Nat) (total_chars : Nat)
  let d ← pydiv ((countSub text "-" + countSub text "—" : Nat) : ℚ) (total_chars : Nat)
  let p ← pydiv (countSub text "(" : Nat) (total_chars : Nat)
  let sc ← pydiv (countSub text ";" : Nat) (total_chars : Nat)
  return { ellipsis_usage := e * 1000, dash_usage := d * 1000,
           parenthesis_usage := p * 1000, semicolon_usage := sc * 1000 }

/-- `LinguisticAnalyzer._analyze_writing_style`: the dict entries are
computed in source order, so the first unguarded division that hits a
zero denominator raises (no guard exists for an empty sentence list,
empty token list, or empty text). -/
def analyze_writing_style (text : String) : Except PyErr WritingStyle := do
  let sentences := sent_tokenize text
  let words := word_tokenize text
  let asl := textstat_avg_sentence_length text
  let fre := textstat_flesch_reading_ease text
  let excl ← pydiv (countSub text "!" : Nat) (sentences.length : Nat)
  let quest ← pydiv (countSub text "?" : Nat) (sentences.length : Nat)
  let upper ← pydiv ((words.filter pyIsUpper).length : Nat) (words.length : Nat)
  let punct ← analyze_punctuation text
  return { avg_sentence_length := asl, reading_ease := fre,
           exclamation_usage := excl, question_usage := quest,
           uppercase_ratio := upper, punctuation_style := punct }

/-- Helper for the regex tail `\s+\w+`: at least one whitespace character
followed by at least one word character (the character classes are
disjoint, so the greedy match needs no backtracking). -/
def matchSpaceWord (l : List Char) : Bool :=
  (l.takeWhile Char.isWhitespace ≠ []) &&
    (match l.dropWhile Char.isWhitespace with
     | c :: _ => isWChar c
     | [] => false)

/-- Helper: match a literal prefix and return the remaining characters. -/
def matchLit (lit : String) (l : List Char) : Option (List Char) :=
  if lit.data.isPrefixOf l then some (l.drop lit.length) else none

/-- Regex `^(hi|hello|hey)\s+\w+` (`re.match`, greeting category
`informal`); the three alternatives are mutually prefix-free. -/
def informalMatch (s : String) : Bool :=
  ["hi", "hello", "hey"].any (fun g =>
    match matchLit g s.data with
    | some r => matchSpaceWord r
    | none => false)

/-- Regex `^(dear|greetings)\s+\w+` (`re.match`, greeting category
`formal`). -/
def formalGreetMatch (s : String) : Bool :=
  ["dear", "greetings"].any (fun g =>
    match matchLit g s.data with
    | some r => matchSpaceWord r
    | none => false)

/-- Regex `^(good\s+(morning|afternoon|evening))` (`re.match`, greeting
category `time_based`). -/
def timeBasedMatch (s : String) : Bool :=
  match matchLit "good" s.data with
  | some r =>
    (r.takeWhile Char.isWhitespace ≠ []) &&
      (["morning", "afternoon", "evening"].any (fun w =>
        w.data.isPrefixOf (r.dropWhile Char.isWhitespace)))
  | none => false

/-- Regex `^\w+,` (`re.match`, greeting category `name_only`); `\w` and
the comma are disjoint, so the greedy word-character run is exact. -/
def nameOnlyMatch (s : String) : Bool :=
  (s.data.takeWhile isWChar ≠ []) &&
    (match s.data.dropWhile isWChar with
     | c :: _ => c = ','
     | [] => false)

/-- The ordered `greeting_patterns` list of `_analyze_greetings`. -/
def greeting_patterns : List ((String → Bool) × String) :=
  [(informalMatch, "informal"), (formalGreetMatch, "formal"),
   (timeBasedMatch, "time_based"), (nameOnlyMatch, "name_only")]

/-- `LinguisticAnalyzer._analyze_greetings`: for each email, scan the
ordered patterns over the lowercased stripped text and increment the
style of the first match, then `break` (so at most one increment per
email; unmatched emails increment nothing). -/
def analyze_greetings (emails : List String) : List (String × Nat) :=
  emails.foldl (fun greetings email =>
    let email_lower := pyStrip (pyLower email)
    match greeting_patterns.find? (fun p => p.1 email_lower) with
    | some p => dincr greetings p.2
    | none => greetings) []

/-- Regex `(best|regards|sincerely)` under `re.search` (signature
category `formal`): literal substring containment. -/
def formalSigMatch (s : String) : Bool :=
  containsSub s "best" || containsSub s "regards" || containsSub s "sincerely"

/-- Regex `(thanks|thx|ty)` under `re.search` (signature category
`grateful`). -/
def gratefulSigMatch (s : String) : Bool :=
  containsSub s "thanks" || containsSub s "thx" || containsSub s "ty"

/-- Regex `(cheers|talk soon)` under `re.search` (signature category
`casual`). -/
def casualSigMatch (s : String) : Bool :=
  containsSub s "cheers" || containsSub s "talk soon"

/-- Regex `^-\s*\w+` under `re.search` (signature category `minimal`):
without `re.MULTILINE` the caret anchors at the start of the whole
string, so the match must begin at the first character. -/
def minimalSigMatch (s : String) : Bool :=
  match s.data with
  | '-' :: rest =>
    (match rest.dropWhile Char.isWhitespace with
     | c :: _ => isWChar c
     | [] => false)
  | _ => false

/-- The `signature_patterns` list of `_analyze_signatures`. -/
def signature_patterns : List ((String → Bool) × String) :=
  [(formalSigMatch, "formal"), (gratefulSigMatch, "grateful"),
   (casualSigMatch, "casual"), (minimalSigMatch, "minimal")]

/-- Python `' '.join(email.strip().split('\n')[-3:]).lower()`: the last
three lines of the stripped message, joined with spaces, lowercased. -/
def lastLinesLower (email : String) : String :=
  pyLower (" ".intercalate (takeLast 3 (pySplitLines (pyStrip email))))

/-- `LinguisticAnalyzer._analyze_signatures`: for each email, test all
four patterns on the joined last three lines (no `break`: every matching
pattern increments its category). -/
def analyze_signatures (emails : List String) : List (String × Nat) :=
  emails.foldl (fun signatures email =>
    let last_lines := lastLinesLower email
    signature_patterns.foldl (fun acc p =>
      if p.1 last_lines then dincr acc p.2 else acc) signatures) []

/-- `LinguisticAnalyzer._analyze_email_patterns`: the mean word count per
message divides by `len(emails)` with no guard (raising
`ZeroDivisionError` on an empty corpus), then the greeting and signature
tallies. -/
def analyze_email_patterns (emails : List String) : Except PyErr EmailPatterns := do
  let avg ← pydiv ((emails.map (fun e => (pySplit e).length)).sum : Nat)
    (emails.length : Nat)
  return { avg_email_length := avg,
           greeting_style := analyze_greetings emails,
           signature_style := analyze_signatures emails }

/-- Per-chunk type-token ratio: distinct words over chunk length. -/
def chunkTTR (chunk : List String) : ℚ :=
  ((chunk.dedup.length : ℚ)) / ((chunk.length : ℚ))

/-- The chunk loop of `_calculate_ttr`: `for i in range(0, len(words),
1000): chunk = words[i:i+1000]; if len(chunk) > 100: append its TTR`,
rendered as recursion on the loop index. -/
def ttrLoop (words : List String) (i : Nat) : List ℚ :=
  if _h : i < words.length then
    let chunk := (words.drop i).take 1000
    (if 100 < chunk.length then [chunkTTR chunk] else []) ++ ttrLoop words (i + 1000)
  else []
termination_by words.length - i
decreasing_by omega

/-- `LinguisticAnalyzer._calculate_ttr`: 0 on an empty word list;
otherwise the mean of the per-chunk TTRs of the 1000-word slices whose
length is strictly greater than 100, and 0 when no slice qualifies. -/
def calculate_ttr (words : List String) : ℚ :=
  if words = [] then 0
  else
    let ttrs := ttrLoop words 0
    if ttrs = [] then 0 else ttrs.sum / (ttrs.length : ℚ)

/-- `LinguisticAnalyzer._calculate_diversity`: alphabetic non-stopword
tokens of the lowercased text (no minimum-length filter here); the
`lexical_diversity` ratio is guarded by the source (`if meaningful_words
else 0`), and `vocabulary_richness` is the chunked TTR. -/
def calculate_diversity (text : String) : VocabDiversity :=
  let words := word_tokenize (pyLower text)
  let meaningful_words := words.filter (fun w =>
    pyIsAlpha w && !(stop_words.contains w))
  let unique_words := meaningful_words.dedup
  { total_words := meaningful_words.length,
    unique_words := unique_words.length,
    lexical_diversity :=
      if meaningful_words = [] then 0
      else (unique_words.length : ℚ) / (meaningful_words.length : ℚ),
    vocabulary_richness := calculate_ttr meaningful_words }

/-- `LinguisticAnalyzer._get_email_starters`: the first 50 characters of
the first sentence of each email that has one, tallied, top 5. -/
def get_email_starters (emails : List String) : List (String × Nat) :=
  let starters := emails.foldl (fun acc email =>
    match sent_tokenize email with
    | [] => acc
    | first :: _ => acc ++ [(first.data.take 50).asString]) []
  most_common 5 starters

/-- `LinguisticAnalyzer._get_email_closings`: the last 50 characters of
the last sentence of each email that has one, tallied, top 5. -/
def get_email_closings (emails : List String) : List (String × Nat) :=
  let closings := emails.foldl (fun acc email =>
    match (sent_tokenize email).getLast? with
    | none => acc
    | some last => acc ++ [(takeLast 50 last.data).asString]) []
  most_common 5 closings

/-- The fixed transition vocabulary of `_get_transition_preferences`. -/
def transitions : List String :=
  ["however", "therefore", "moreover", "furthermore",
   "nevertheless", "consequently", "additionally",
   "meanwhile", "otherwise", "accordingly"]

/-- `LinguisticAnalyzer._get_transition_preferences`: raw substring
counts of the 10 fixed words over the lowercased joined text (a dict in
vocabulary order), stably sorted by descending count and truncated to 5. -/
def get_transition_preferences (emails : List String) : List (String × Nat) :=
  let text := pyLower (" ".intercalate emails)
  let usage := transitions.map (fun word => (word, countSub text word))
  (sortDescBy usage).take 5

/-- Count of regex `\b[A-Z]{3,}\b` matches: maximal word-character runs
made of at least three characters, all uppercase letters (a run with any
other word character in it cannot satisfy both boundaries). -/
def allCapsGo : Nat → List Char → Nat
  | 0, _ => 0
  | _ + 1, [] => 0
  | fuel + 1, c :: rest =>
    if isWChar c then
      let run := c :: rest.takeWhile isWChar
      (if 3 ≤ run.length ∧ run.all (fun x => x.isAlpha ∧ x.isUpper) then 1 else 0)
        + allCapsGo fuel (rest.dropWhile isWChar)
    else allCapsGo fuel rest

/-- Count of regex matches of three-plus all-uppercase word runs, on a
character list (fuel is always sufficient at the list length). -/
def allCapsCount (l : List Char) : Nat := allCapsGo l.length l

/-- `LinguisticAnalyzer._get_emphasis_patterns`: accumulated counts of
all-caps tokens and of the literal substrings `very`/`really` and
`absolutely`/`definitely` in the lowercased messages (`repetition` is
initialized to 0 and never incremented by the source). -/
def get_emphasis_patterns (emails : List String) : EmphasisPatterns :=
  emails.foldl (fun patterns email =>
    { patterns with
      all_caps := patterns.all_caps + allCapsCount email.data,
      very_really := patterns.very_really +
        (countSub (pyLower email) "very" + countSub (pyLower email) "really"),
      absolutely_definitely := patterns.absolutely_definitely +
        (countSub (pyLower email) "absolutely" + countSub (pyLower email) "definitely") })
    { all_caps := 0, repetition := 0, very_really := 0, absolutely_definitely := 0 }

/-- `LinguisticAnalyzer._create_fingerprint`. -/
def create_fingerprint (emails : List String) : Fingerprint :=
  { starter_phrases := get_email_starters emails,
    closing_phrases := get_email_closings emails,
    transition_words := get_transition_preferences emails,
    emphasis_patterns := get_emphasis_patterns emails }

/-- A Python object handed to `analyze_person` in the `emails` list:
either a string or something else (modelled only by the distinction the
code can observe through `str.join`). -/
inductive PyObj : Type
  | str : String → PyObj
  | nonStr : PyObj
  deriving DecidableEq, Repr

/-- Whether a `PyObj` is a string. -/
def PyObj.isStr : PyObj → Bool
  | PyObj.str _ => true
  | PyObj.nonStr => false

/-- Python `' '.join(emails)` checks every element: it raises
`TypeError: sequence item i: expected str instance` at the first
non-string element, before any metric computation.  This helper returns
the validated strings (joining is then `String.intercalate`). -/
def collectStrs (objs : List PyObj) : Except PyErr (List String) :=
  match objs with
  | [] => Except.ok []
  | PyObj.str s :: rest =>
    match collectStrs rest with
    | Except.ok ss => Except.ok (s :: ss)
    | Except.error e =>
      match e with
      | PyErr.typeError i => Except.error (PyErr.typeError (i + 1))
      | e2 => Except.error e2
  | PyObj.nonStr :: _ => Except.error (PyErr.typeError 0)

/-- `LinguisticAnalyzer.analyze_person`: join the emails (raising
`TypeError` on a non-string element before anything else), then build
the analysis dict; its entries are evaluated in source order, so the
writing-style divisions run before the email-pattern division. -/
def analyze_person (emails : List PyObj) (person_name : String) :
    Except PyErr Analysis := do
  let strs ← collectStrs emails
  let full_text := " ".intercalate strs
  let ws ← analyze_writing_style full_text
  let ep ← analyze_email_patterns strs
  return { person := person_name,
           total_emails := strs.length,
           comfort_words := get_comfort_words full_text,
           favorite_phrases := get_favorite_phrases strs,
           writing_style := ws,
           vocabulary_diversity := calculate_diversity full_text,
           linguistic_fingerprint := create_fingerprint strs,
           email_patterns := ep }

/-- Tally of labels in encounter order (a `defaultdict(int)` loop). -/
def tally (l : List String) : List (String × Nat) := l.foldl dincr []

/-- Count stored under key `k` in an association list (0 when absent). -/
def dictCount (d : List (String × Nat)) (k : String) : Nat :=
  ((d.find? (fun p => p.1 == k)).map (fun p => p.2)).getD 0

/-- Claim-side characterization of greeting classification: the category
of the first pattern (in the order informal, formal, time_based,
name_only) matching the lowercased, whitespace-stripped text; `none`
when no pattern matches. -/
def greetingStyleOf (email : String) : Option String :=
  (greeting_patterns.find? (fun p => p.1 (pyStrip (pyLower email)))).map (fun p => p.2)

/-- Claim-side characterization of signature classification: the
categories of all patterns matching the joined lowercased last three
lines (cumulative, in pattern order). -/
def sigStylesOf (email : String) : List String :=
  (signature_patterns.filter (fun p => p.1 (lastLinesLower email))).map (fun p => p.2)

/-- Claim-side word-trigram windows: every 3 consecutive tokens of one
message, in order. -/
def windows3 : List String → List (List String)
  | a :: b :: c :: rest => [a, b, c] :: windows3 (b :: c :: rest)
  | _ => []

/-- Claim-side phrase extraction for one message: lowercase tokens,
3-token windows, keep a window exactly when every token passes the
substance filter, join with single spaces. -/
def phrasesOfMsg (msg : String) : List String :=
  (windows3 (word_tokenize (pyLower msg))).filterMap (fun w =>
    if w.all substanceOk then some (" ".intercalate w) else none)

/-- Partition into consecutive chunks of 1000 words (the last chunk may
be shorter). -/
def chunksOf1000 : List String → List (List String)
  | [] => []
  | l@(_ :: _) => l.take 1000 :: chunksOf1000 (l.drop 1000)
termination_by l => l.length
decreasing_by simp_all; omega

/-- Claim-side `vocabulary_richness` exactly as claim C4 states it: mean
of per-chunk type-token ratios over consecutive chunks of 1000 words,
where a chunk is retained exactly when it has AT LEAST 100 words, and 0
when no chunk qualifies. -/
def vocabulary_richness_claimed (words : List String) : ℚ :=
  let chunks := (chunksOf1000 words).filter (fun c => decide (100 ≤ c.length))
  if chunks = [] then 0
  else (chunks.map chunkTTR).sum / (chunks.length : ℚ)

/-- Amended vocabulary_richness: mean of per-chunk type-token ratios over
consecutive chunks of 1000 words, where a chunk is retained exactly when
it has STRICTLY MORE than 100 words, and 0 when no chunk qualifies. -/
def vocabulary_richness_amended (words : List String) : ℚ :=
  let chunks := (chunksOf1000 words).filter (fun c => decide (100 < c.length))
  if chunks = [] then 0
  else (chunks.map chunkTTR).sum / (chunks.length : ℚ)

/-- The transition-word usage dict in vocabulary order (the dict
comprehension of `_get_transition_preferences`). -/
def transitionUsage (emails : List String) : List (String × Nat) :=
  transitions.map (fun word =>
    (word, countSub (pyLower (" ".intercalate emails)) word))

/-- Index of the first non-string element of the input list. -/
def firstNonStrIdx (objs : List PyObj) : Nat :=
  objs.findIdx (fun o => !o.isStr)

/-! ## Helper lemmas -/

/-- The greeting loop with an arbitrary running tally equals the tally of
the per-email first-match classifications. -/
theorem greet_fold_eq (emails : List String) (acc : List (String × Nat)) :
    List.foldl (fun greetings email =>
      match greeting_patterns.find? (fun p => p.1 (pyStrip (pyLower email))) with
      | some p => dincr greetings p.2
      | none => greetings) acc emails
      = List.foldl dincr acc (emails.filterMap greetingStyleOf) := by
  induction emails generalizing acc with
  | nil => rfl
  | cons e rest ih =>
    simp only [List.foldl_cons, List.filterMap_cons]
    cases hf : greeting_patterns.find? (fun p => p.1 (pyStrip (pyLower e))) with
    | none =>
      have hg : greetingStyleOf e = none := by simp [greetingStyleOf, hf]
      simp only [hg, ih]
    | some p =>
      have hg : greetingStyleOf e = some p.2 := by simp [greetingStyleOf, hf]
      simp only [hg, ih, List.foldl_cons]

/-- `analyze_greetings` tallies exactly one category per email: the first
matching pattern of the ordered list, nothing for unmatched emails. -/
theorem analyze_greetings_eq (emails : List String) :
    analyze_greetings emails = tally (emails.filterMap greetingStyleOf) :=
  greet_fold_eq emails []

/-- The inner signature-pattern loop equals folding the tally over all
matching categories. -/
theorem sig_inner_eq (pats : List ((String → Bool) × String)) (s : String)
    (acc : List (String × Nat)) :
    List.foldl (fun a p => if p.1 s then dincr a p.2 else a) acc pats
      = List.foldl dincr acc ((pats.filter (fun p => p.1 s)).map (fun p => p.2)) := by
  induction pats generalizing acc with
  | nil => rfl
  | cons p rest ih =>
    by_cases hp : p.1 s <;>
      simp only [List.foldl_cons, List.filter_cons, hp, if_true, if_false,
        Bool.false_eq_true, ite_false, ite_true, List.map_cons, ih]

/-- The signature loop with an arbitrary running tally equals the tally
of all per-email matching categories. -/
theorem sig_fold_eq (emails : List String) (acc : List (String × Nat)) :
    List.foldl (fun signatures email =>
      List.foldl (fun a p => if p.1 (lastLinesLower email) then dincr a p.2 else a)
        signatures signature_patterns) acc emails
      = List.foldl dincr acc (emails.flatMap sigStylesOf) := by
  induction emails generalizing acc with
  | nil => rfl
  | cons e rest ih =>
    simp only [List.foldl_cons, List.flatMap_cons, List.foldl_append]
    rw [sig_inner_eq, ih, sigStylesOf]

/-- `analyze_signatures` tallies every matching category of every email
(cumulative classification). -/
theorem analyze_signatures_eq (emails : List String) :
    analyze_signatures emails = tally (emails.flatMap sigStylesOf) :=
  sig_fold_eq emails []

/-- Lookup in a cons cell: the head key shadows the tail. -/
theorem dictCount_cons (k2 : String) (v : Nat) (d : List (String × Nat)) (k : String) :
    dictCount ((k2, v) :: d) k = if k2 = k then v else dictCount d k := by
  by_cases h : k2 = k <;> simp [dictCount, List.find?_cons, h]

/-- Incrementing a key bumps its stored count by one. -/
theorem dictCount_dincr_self (d : List (String × Nat)) (k : String) :
    dictCount (dincr d k) k = dictCount d k + 1 := by
  induction d with
  | nil => simp [dincr, dictCount, dictCount_cons]
  | cons p rest ih =>
    obtain ⟨k2, v⟩ := p
    by_cases h : k2 = k
    · subst h; simp [dincr, dictCount_cons]
    · simp [dincr, dictCount_cons, h, ih]

/-- Incrementing another key leaves a count unchanged. -/
theorem dictCount_dincr_ne (d : List (String × Nat)) (k k2 : String) (h : k2 ≠ k) :
    dictCount (dincr d k2) k = dictCount d k := by
  induction d with
  | nil => simp [dincr, dictCount, dictCount_cons, h]
  | cons p rest ih =>
    obtain ⟨k3, v⟩ := p
    by_cases h3 : k3 = k2
    · subst h3; simp [dincr, dictCount_cons, h]
    · simp [dincr, dictCount_cons, h3, ih]

/-- A fold of increments adds the number of occurrences of a key. -/
theorem dictCount_foldl_dincr (l : List String) (acc : List (String × Nat)) (k : String) :
    dictCount (List.foldl dincr acc l) k = dictCount acc k + l.count k := by
  induction l generalizing acc with
  | nil => simp
  | cons a rest ih =>
    by_cases h : a = k
    · subst h
      simp only [List.foldl_cons, List.count_cons, ih, dictCount_dincr_self]
      simp; omega
    · simp [List.count_cons, ih, dictCount_dincr_ne _ _ _ h, h]

/-- The tally stores exactly the occurrence count of each label. -/
theorem dictCount_tally (l : List String) (k : String) :
    dictCount (tally l) k = l.count k := by
  simp only [tally]
  rw [dictCount_foldl_dincr]
  simp [dictCount]

/-- `' '.join` scans the elements in order and fails at the first
non-string element, reporting its position. -/
theorem collectStrs_err (objs : List PyObj) (h : ∃ o ∈ objs, o.isStr = false) :
    collectStrs objs = Except.error (PyErr.typeError (firstNonStrIdx objs)) := by
  induction objs with
  | nil => simp at h
  | cons o rest ih =>
    cases o with
    | nonStr => simp [collectStrs, firstNonStrIdx, List.findIdx_cons, PyObj.isStr]
    | str s =>
      have hrest : ∃ o ∈ rest, o.isStr = false := by
        rcases h with ⟨o, ho, hns⟩
        rcases List.mem_cons.mp ho with rfl | hm
        · simp [PyObj.isStr] at hns
        · exact ⟨o, hm, hns⟩
      rw [collectStrs, ih hrest]
      simp [firstNonStrIdx, List.findIdx_cons, PyObj.isStr]

/-- Unfolding equation for the chunk partition on a non-empty list. -/
theorem chunksOf1000_ne_nil (l : List String) (h : l ≠ []) :
    chunksOf1000 l = l.take 1000 :: chunksOf1000 (l.drop 1000) := by
  cases l with
  | nil => exact absurd rfl h
  | cons a t => rw [chunksOf1000]

/-- The index-stepping chunk loop of `_calculate_ttr` visits exactly the
consecutive 1000-word chunks of the remaining suffix, keeping the TTRs of
those with more than 100 words. -/
theorem ttrLoop_eq (words : List String) (i : Nat) :
    ttrLoop words i =
      ((chunksOf1000 (words.drop i)).filter (fun c => decide (100 < c.length))).map
        chunkTTR := by
  induction i using ttrLoop.induct words with
  | case1 i hi ih =>
    rw [ttrLoop]
    simp only [dif_pos hi]
    have hne : words.drop i ≠ [] := by
      intro hnil
      rw [List.drop_eq_nil_iff] at hnil
      omega
    rw [chunksOf1000_ne_nil _ hne, List.drop_drop]
    simp only [List.filter_cons]
    by_cases hc : 100 < words.length - i
    · simp [hc, ih]
    · simp [hc, ih]
  | case2 i hi =>
    rw [ttrLoop]
    simp only [dif_neg hi]
    have hnil : words.drop i = [] := by
      rw [List.drop_eq_nil_iff]
      omega
    simp [hnil, chunksOf1000]

/-- The index-based trigram slices of `_get_favorite_phrases` are exactly
the 3-token windows of the token list. -/
theorem windows3_eq (words : List String) :
    (List.range (words.length + 1 - 3)).map (fun i => (words.drop i).take 3)
      = windows3 words := by
  induction words with
  | nil => rfl
  | cons a t ih =>
    cases t with
    | nil => rfl
    | cons b t2 =>
      cases t2 with
      | nil => rfl
      | cons c rest =>
        have hlen : (a :: b :: c :: rest).length + 1 - 3 = rest.length + 1 := by
          simp only [List.length_cons]; omega
        rw [hlen, List.range_succ_eq_map, List.map_cons, List.map_map]
        have hlen2 : (b :: c :: rest).length + 1 - 3 = rest.length := by
          simp only [List.length_cons]; omega
        rw [hlen2] at ih
        rw [windows3, ← ih]
        simp [Function.comp]

/-- Accumulating appends over a list is appending the concatenation. -/
theorem foldl_append_eq (f : String → List String) (emails : List String)
    (acc : List String) :
    List.foldl (fun acc e => acc ++ f e) acc emails = acc ++ emails.flatMap f := by
  induction emails generalizing acc with
  | nil => simp
  | cons e rest ih => simp [ih, List.flatMap_cons]

/-- Sorting by descending count yields pairwise non-increasing counts. -/
theorem sortDescBy_sorted (l : List (String × Nat)) :
    List.Pairwise countGE (sortDescBy l) :=
  List.sorted_insertionSort countGE l

/-- The sort is a permutation of its input. -/
theorem sortDescBy_perm (l : List (String × Nat)) : (sortDescBy l).Perm l :=
  List.perm_insertionSort countGE l

/-- `most_common` returns at most `n` pairs. -/
theorem most_common_length_le (n : Nat) (l : List String) :
    (most_common n l).length ≤ n := by
  simp [most_common, List.length_take_le]

/-- `most_common` is sorted by non-increasing count. -/
theorem most_common_sorted (n : Nat) (l : List String) :
    List.Pairwise countGE (most_common n l) :=
  List.Pairwise.sublist (List.take_sublist n _) (sortDescBy_sorted (counterOf l))

/-! ## Claim theorems -/

/-- C1: the claim states that an empty message sequence yields a record
with `total_emails = 0`, empty comfort words and all-zero ratios, raising
no exception.  The code has no divide-by-zero guards: with zero messages
the concatenated text is empty, so `exclamation_usage` divides by the
empty sentence list (and `avg_email_length` would divide by the empty
email list), and `analyze_person` raises `ZeroDivisionError` for every
author identifier instead of returning a record. -/
theorem C1_empty_corpus_raises (person_name : String) :
    analyze_person [] person_name = Except.error PyErr.zeroDivision := rfl

/-- C2: the claim states that every ratio of the writing-style analysis
falls back to 0 instead of raising a division error.  The source guards
none of these divisions: on empty text the sentence list is empty and
`exclamation_usage` raises `ZeroDivisionError`, and the four
punctuation-per-1000-characters metrics likewise raise on zero total
characters. -/
theorem C2_writing_style_raises :
    analyze_writing_style "" = Except.error PyErr.zeroDivision ∧
    analyze_punctuation "" = Except.error PyErr.zeroDivision :=
  ⟨rfl, rfl⟩

/-- C3: a message list containing any non-string element makes
`analyze_person` fail before any metric computation: the `' '.join` on
line 27 checks every element and raises `TypeError` identifying the first
offending position, so the result is that error for every input
containing a non-string, independent of all metric code. -/
theorem C3_non_string_fails_fast (objs : List PyObj) (person_name : String)
    (h : ∃ o ∈ objs, o.isStr = false) :
    analyze_person objs person_name
      = Except.error (PyErr.typeError (firstNonStrIdx objs)) := by
  have hc := collectStrs_err objs h
  simp only [analyze_person, hc]
  rfl

/-- C3 witness: a concrete list with a non-string at index 1. -/
theorem C3_non_string_fails_fast_witness :
    analyze_person [PyObj.str "a", PyObj.nonStr] "bob"
      = Except.error (PyErr.typeError 1) :=
  C3_non_string_fails_fast [PyObj.str "a", PyObj.nonStr] "bob"
    ⟨PyObj.nonStr, by decide, rfl⟩

/-- C4 counterexample: on 100 meaningful words the claim (chunks of at
least 100 words retained) predicts a mean chunk TTR of 1/100, but the
source keeps a chunk only when `len(chunk) > 100`, so the chunk of
exactly 100 words is discarded and `_calculate_ttr` returns 0. -/
theorem C4_exact_100_chunk_discarded :
    calculate_ttr (List.replicate 100 "word") = 0 ∧
    vocabulary_richness_claimed (List.replicate 100 "word") = 1 / 100 ∧
    calculate_ttr (List.replicate 100 "word")
      ≠ vocabulary_richness_claimed (List.replicate 100 "word") := by
  have hchunks : chunksOf1000 (List.replicate 100 "word")
      = [List.replicate 100 "word"] := by
    rw [chunksOf1000_ne_nil _ (by simp)]
    rw [List.take_of_length_le (by simp), List.drop_eq_nil_of_le (by simp)]
    simp [chunksOf1000]
  have httr : calculate_ttr (List.replicate 100 "word") = 0 := by
    rw [calculate_ttr]
    rw [if_neg (by simp)]
    rw [ttrLoop_eq, List.drop_zero, hchunks]
    simp
  have hclaim : vocabulary_richness_claimed (List.replicate 100 "word") = 1 / 100 := by
    rw [vocabulary_richness_claimed, hchunks]
    simp [chunkTTR, List.replicate_dedup]
  exact ⟨httr, hclaim, by rw [httr, hclaim]; norm_num⟩

/-- C4 (amended): `vocabulary_richness` is the mean of per-chunk
type-token ratios over consecutive 1000-word chunks, where a chunk is
retained exactly when it has strictly more than 100 words (a chunk of at
most 100 words, including exactly 100, is discarded), and 0 when no
chunk qualifies. -/
theorem C4_ttr_chunk_mean (words : List String) :
    calculate_ttr words = vocabulary_richness_amended words := by
  by_cases hw : words = []
  · subst hw
    rw [calculate_ttr, if_pos rfl, vocabulary_richness_amended]
    simp [chunksOf1000]
  · rw [calculate_ttr, if_neg hw, ttrLoop_eq, List.drop_zero,
      vocabulary_richness_amended]
    by_cases hcs :
        (chunksOf1000 words).filter (fun c => decide (100 < c.length)) = []
    · simp [hcs]
    · simp only [List.map_eq_nil_iff, if_neg hcs, List.length_map]

/-- C5: greeting classification is exclusive — each message contributes
the category of the first pattern (ordered informal, formal, time_based,
name_only) matching its lowercased stripped text, or nothing — while
signature classification is cumulative: each message contributes every
category whose pattern matches its joined lowercased last three lines. -/
theorem C5_greetings_exclusive_signatures_cumulative :
    (∀ emails : List String,
      analyze_greetings emails = tally (emails.filterMap greetingStyleOf)) ∧
    (∀ emails : List String,
      analyze_signatures emails = tally (emails.flatMap sigStylesOf)) :=
  ⟨analyze_greetings_eq, analyze_signatures_eq⟩

/-- The per-message trigram expression of `_get_favorite_phrases` equals
the claim-side window extraction. -/
theorem phrases_inner_eq (email : String) :
    (List.range ((word_tokenize (pyLower email)).length + 1 - 3)).filterMap (fun i =>
      let w := ((word_tokenize (pyLower email)).drop i).take 3
      if w.all substanceOk then some (" ".intercalate w) else none)
      = phrasesOfMsg email := by
  rw [phrasesOfMsg, ← windows3_eq, List.filterMap_map]
  rfl

/-- C6: favorite phrases are counted from 3-token windows taken within
each message independently (no window crosses messages); a window counts
exactly when all three tokens pass the substance filter; the result is
the top 20 by descending aggregate count. -/
theorem C6_trigram_windows (emails : List String) :
    get_favorite_phrases emails = most_common 20 (emails.flatMap phrasesOfMsg) := by
  simp only [get_favorite_phrases]
  rw [show (fun (acc : List String) (email : String) =>
        acc ++ (List.range ((word_tokenize (pyLower email)).length + 1 - 3)).filterMap
          (fun i =>
            let w := ((word_tokenize (pyLower email)).drop i).take 3
            if w.all substanceOk then some (" ".intercalate w) else none))
      = fun (acc : List String) (email : String) => acc ++ phrasesOfMsg email by
        funext acc email
        rw [phrases_inner_eq]]
  rw [foldl_append_eq, List.nil_append]

/-- C7: `comfort_words` has at most 30 entries and `favorite_phrases` at
most 20, and both are sorted by non-increasing count (`countGE a b` means
the count of `b` is at most the count of `a`). -/
theorem C7_top_lists_bounded_and_sorted :
    (∀ text : String, (get_comfort_words text).length ≤ 30 ∧
      List.Pairwise countGE (get_comfort_words text)) ∧
    (∀ emails : List String, (get_favorite_phrases emails).length ≤ 20 ∧
      List.Pairwise countGE (get_favorite_phrases emails)) := by
  constructor
  · intro text
    exact ⟨most_common_length_le 30 _, most_common_sorted 30 _⟩
  · intro emails
    exact ⟨most_common_length_le 20 _, most_common_sorted 20 _⟩

/-- C8: the pipeline is a pure function of the message list and the
author name — the embedding contains no other state, faithfully to the
source, which only reads insertion-ordered dicts and `Counter`s and uses
the stable `sorted`, never iterating a hash-ordered set — so two calls on
equal inputs give equal records, including element order everywhere. -/
theorem C8_deterministic (emails1 emails2 : List PyObj) (n1 n2 : String)
    (h1 : emails1 = emails2) (h2 : n1 = n2) :
    analyze_person emails1 n1 = analyze_person emails2 n2 := by
  subst h1
  subst h2
  rfl

/-- C8 witness: two identical calls at a concrete input agree. -/
theorem C8_deterministic_witness :
    analyze_person [PyObj.str "Hi Bob, thanks!"] "alice"
      = analyze_person [PyObj.str "Hi Bob, thanks!"] "alice" :=
  C8_deterministic _ _ _ _ rfl rfl

/-- C9: the transition-word mapping always has exactly 5 entries — the 5
highest-count words of the fixed 10-word vocabulary, sorted by
non-increasing count, every returned key from the vocabulary, and every
returned count at least every omitted count — so zero-count words appear
whenever fewer than 5 vocabulary words occur in the text. -/
theorem C9_transition_top5 (emails : List String) :
    (get_transition_preferences emails).length = 5 ∧
    List.Pairwise countGE (get_transition_preferences emails) ∧
    (∀ p ∈ get_transition_preferences emails, p.1 ∈ transitions) ∧
    (∀ p ∈ get_transition_preferences emails,
      ∀ q ∈ (sortDescBy (transitionUsage emails)).drop 5, q.2 ≤ p.2) := by
  have hpref : get_transition_preferences emails
      = (sortDescBy (transitionUsage emails)).take 5 := rfl
  have hlen : (sortDescBy (transitionUsage emails)).length = 10 := by
    rw [sortDescBy, List.length_insertionSort, transitionUsage, List.length_map]
    rfl
  have hsorted := sortDescBy_sorted (transitionUsage emails)
  refine ⟨?_, ?_, ?_, ?_⟩
  · rw [hpref, List.length_take, hlen]
    norm_num
  · rw [hpref]
    exact List.Pairwise.sublist (List.take_sublist 5 _) hsorted
  · intro p hp
    rw [hpref] at hp
    have hmem : p ∈ sortDescBy (transitionUsage emails) := List.mem_of_mem_take hp
    have hmem2 : p ∈ transitionUsage emails :=
      (sortDescBy_perm (transitionUsage emails)).mem_iff.mp hmem
    rcases List.mem_map.mp hmem2 with ⟨w, hw, hpw⟩
    rw [← hpw]
    exact hw
  · intro p hp q hq
    rw [hpref] at hp
    have hsplit := hsorted
    rw [← List.take_append_drop 5 (sortDescBy (transitionUsage emails))] at hsplit
    exact (List.pairwise_append.mp hsplit).2.2 p hp q hq

/-- C9 witness: concrete input exercising the theorem. -/
theorem C9_transition_top5_witness :
    (get_transition_preferences ["however therefore"]).length = 5 :=
  (C9_transition_top5 ["however therefore"]).1

/-- Per-message characterization of the `minimal` signature tally. -/
theorem sig_minimal_count (email : String) :
    dictCount (analyze_signatures [email]) "minimal" =
      if minimalSigMatch (lastLinesLower email) then 1 else 0 := by
  rw [analyze_signatures_eq]
  simp only [List.flatMap_cons, List.flatMap_nil, List.append_nil]
  rw [dictCount_tally, sigStylesOf]
  generalize lastLinesLower email = ll
  by_cases hm : minimalSigMatch ll <;>
    by_cases h1 : formalSigMatch ll <;>
    by_cases h2 : gratefulSigMatch ll <;>
    by_cases h3 : casualSigMatch ll <;>
    simp [signature_patterns, List.filter_cons, h1, h2, h3, hm]

/-- Concrete check: a dash-led final line preceded by other non-empty
lines inside the last three is not tallied as `minimal`. -/
theorem sig_minimal_not_at_start :
    dictCount
      (analyze_signatures ["Attached is the report\nsee notes inline\n- John"])
      "minimal" = 0 := by decide

/-- Concrete check: a dash-led sole line is tallied as `minimal`. -/
theorem sig_minimal_at_start :
    dictCount (analyze_signatures ["- John"]) "minimal" = 1 := by decide

/-- C10: the `minimal` signature category is incremented for a message
exactly when the dash-then-word pattern sits at the very start of the
joined last-three-lines string (the regex is searched without MULTILINE,
so the caret anchors at the string start); in particular a dash-led final
line preceded by other non-empty lines within the last three is not
counted, while a dash-led sole line is. -/
theorem C10_minimal_anchored_at_start :
    (∀ email : String,
      dictCount (analyze_signatures [email]) "minimal" =
        if minimalSigMatch (lastLinesLower email) then 1 else 0) ∧
    dictCount
      (analyze_signatures ["Attached is the report\nsee notes inline\n- John"])
      "minimal" = 0 ∧
    dictCount (analyze_signatures ["- John"]) "minimal" = 1 :=
  ⟨sig_minimal_count, sig_minimal_not_at_start, sig_minimal_at_start⟩
